import Mathlib

/-!
Verification of the EEL-nergy temperature-monitoring program (src/eel2.py and
its beta variant src/unnamed/part_000; the two share the same control logic).

The Python program is shallowly embedded here:
* floating-point temperatures are modelled as rationals (ℚ);
* the serial actuator channel is modelled by the per-step input of one response
  line, reduced to whether the stripped line is nonempty (a timeout yields an
  empty line);
* wall-clock time inside a gathering window is modelled by the list of per-tick
  outcomes the window would observe (one entry per 1-second tick), and the
  scheduler's sleep calls are modelled by the amount of time they sleep as a
  function of the measured duration;
* an exception raised by a sensor read is modelled as a `none` tick outcome;
* logging and CSV writes have no effect on the program state modelled here and
  are omitted.
-/

/-- Commands the program writes to the NodeMCU over serial:
`b"THRESHOLD_EXCEEDED\n"` and `b"RESET_DEVICE\n"` (src/eel2.py lines 73, 81). -/
inductive NodeCmd where
  | threshold_exceeded
  | reset_device
deriving DecidableEq, Repr

/-- Global constant `TEMP_THRESHOLD = 35.0` (src/eel2.py line 44). -/
def TEMP_THRESHOLD : ℚ := 35

/-- Evaluation `avg_temp > TEMP_THRESHOLD` used at the call sites of
`notify_nodemcu` (src/eel2.py lines 101 and 157). -/
def exceedsThreshold (reading : ℚ) : Bool := TEMP_THRESHOLD < reading

/-- Embedding of `notify_nodemcu(exceeded)` (src/eel2.py lines 68-88).
State in: the global `device_active`; state out: its new value, paired with the
command emitted at this call (if any).  `respNonempty` says whether the
response line read back after a command (`ser.readline().decode().strip()`)
is nonempty.  Faithful to the source: after sending `THRESHOLD_EXCEEDED` the
code sets `device_active = True` but then, if a nonempty response line
arrives, immediately sets `device_active = False` again (lines 76-79); after
`RESET_DEVICE` a nonempty response is only logged (lines 84-86). -/
def notify_nodemcu (exceeded : Bool) (device_active : Bool) (respNonempty : Bool) :
    Bool × Option NodeCmd :=
  if exceeded && !device_active then
    (if respNonempty then false else true, some NodeCmd.threshold_exceeded)
  else if !exceeded && device_active then
    (false, some NodeCmd.reset_device)
  else
    (device_active, none)

/-- Run of `notify_nodemcu` over a sequence of evaluated readings, threading
`device_active` exactly as the global variable is threaded in the program.
Each step carries the scalar reading evaluated against the threshold and the
response line (nonempty or not) the NodeMCU would answer with if a command is
sent at that step.  Returns the per-step emitted command (`none` when the call
is debounced). -/
def notifyRun (device_active : Bool) : List (ℚ × Bool) → List (Option NodeCmd)
  | [] => []
  | (reading, resp) :: rest =>
    (notify_nodemcu (exceedsThreshold reading) device_active resp).2 ::
      notifyRun (notify_nodemcu (exceedsThreshold reading) device_active resp).1 rest

/-- Commands actually emitted on the serial channel during a run, in order. -/
def emittedCmds (device_active : Bool) (steps : List (ℚ × Bool)) : List NodeCmd :=
  (notifyRun device_active steps).filterMap id

/-- Helper invariant for the debounce property when every response line is
empty: starting from state `a`, the emitted commands alternate, and the first
one differs from the command whose effect matches `a`. -/
theorem notify_alternation (steps : List (ℚ × Bool)) :
    ∀ a : Bool, (∀ p ∈ steps, p.2 = false) →
      List.Chain' (· ≠ ·)
        ((if a then NodeCmd.threshold_exceeded else NodeCmd.reset_device) ::
          emittedCmds a steps) := by
  induction steps with
  | nil => intro a _; cases a <;> simp [emittedCmds, notifyRun]
  | cons p rest ih =>
    intro a hresp
    obtain ⟨r, resp⟩ := p
    have hr : resp = false := hresp (r, resp) (by simp)
    subst hr
    have hrest : ∀ q ∈ rest, q.2 = false := fun q hq => hresp q (by simp [hq])
    cases hx : exceedsThreshold r <;> cases a
    · -- reading below threshold, device inactive: debounced
      have heq : emittedCmds false ((r, false) :: rest) = emittedCmds false rest := by
        simp [emittedCmds, notifyRun, notify_nodemcu, hx]
      rw [heq]; exact ih false hrest
    · -- reading below threshold, device active: RESET_DEVICE, state becomes false
      have heq : emittedCmds true ((r, false) :: rest) =
          NodeCmd.reset_device :: emittedCmds false rest := by
        simp [emittedCmds, notifyRun, notify_nodemcu, hx]
      rw [heq]
      refine List.chain'_cons.2 ⟨by simp, ?_⟩
      simpa using ih false hrest
    · -- reading above threshold, device inactive: THRESHOLD_EXCEEDED, state true
      have heq : emittedCmds false ((r, false) :: rest) =
          NodeCmd.threshold_exceeded :: emittedCmds true rest := by
        simp [emittedCmds, notifyRun, notify_nodemcu, hx]
      rw [heq]
      refine List.chain'_cons.2 ⟨by simp, ?_⟩
      simpa using ih true hrest
    · -- reading above threshold, device active: debounced
      have heq : emittedCmds true ((r, false) :: rest) = emittedCmds true rest := by
        simp [emittedCmds, notifyRun, notify_nodemcu, hx]
      rw [heq]; exact ih true hrest

/-- C1 counterexample: starting inactive, the readings 36 °C, 36 °C with a
nonempty actuator response line to the first command make the program emit
`THRESHOLD_EXCEEDED` twice in a row — the nonempty response after the first
activation flips `device_active` back to `False` (src/eel2.py lines 76-79), so
the same command is re-emitted with no opposite transition in between,
contradicting the claim for this sequence of response lines. -/
theorem notify_repeats_on_nonempty_response :
    emittedCmds false [((36 : ℚ), true), ((36 : ℚ), false)] =
      [NodeCmd.threshold_exceeded, NodeCmd.threshold_exceeded] ∧
    ¬ List.Chain' (· ≠ ·) (emittedCmds false [((36 : ℚ), true), ((36 : ℚ), false)]) := by
  constructor
  · rfl
  · have heq : emittedCmds false [((36 : ℚ), true), ((36 : ℚ), false)] =
        [NodeCmd.threshold_exceeded, NodeCmd.threshold_exceeded] := rfl
    rw [heq]
    simp [List.chain'_cons]

/-- C1 (amended): a command is emitted at a step if and only if the evaluated
condition (reading > 35.0) differs from the `device_active` state resulting
from the previous evaluation — this holds for every response sequence.  The
no-repetition consequence, however, only holds when every actuator response
line is empty: then the emitted commands strictly alternate (never the same
command twice in a row).  A nonempty response line after an activation reverts
the state and allows `THRESHOLD_EXCEEDED` to repeat. -/
theorem notify_edge_triggered :
    (∀ (reading : ℚ) (a resp : Bool),
        ((notify_nodemcu (exceedsThreshold reading) a resp).2 ≠ none ↔
          exceedsThreshold reading ≠ a)) ∧
    (∀ steps : List (ℚ × Bool), (∀ p ∈ steps, p.2 = false) →
        List.Chain' (· ≠ ·) (emittedCmds false steps)) := by
  constructor
  · intro reading a resp
    cases exceedsThreshold reading <;> cases a <;> simp [notify_nodemcu]
  · intro steps h
    have h2 := notify_alternation steps false h
    have h3 : List.Chain' (· ≠ ·)
        (NodeCmd.reset_device :: emittedCmds false steps) := by simpa using h2
    exact h3.tail

/-- Witness for the amended C1 at concrete inputs: at reading 36 °C from the
inactive state a command is emitted, and over the empty-response run
[36 °C, 30 °C] the emitted commands alternate. -/
theorem notify_edge_triggered_witness :
    ((notify_nodemcu (exceedsThreshold 36) false false).2 ≠ none ↔
      exceedsThreshold 36 ≠ false) ∧
    List.Chain' (· ≠ ·) (emittedCmds false [((36 : ℚ), false), ((30 : ℚ), false)]) :=
  ⟨notify_edge_triggered.1 36 false false,
    notify_edge_triggered.2 [((36 : ℚ), false), ((30 : ℚ), false)] (by simp)⟩

/-- Mean as computed by `np.mean` on a nonempty list: sum divided by length. -/
def npMean (xs : List ℚ) : ℚ := xs.sum / (xs.length : ℚ)

/-- Guarded mean `np.mean(temps) if temps else 0` (src/eel2.py lines 110, 143,
178). -/
def avgOr0 (xs : List ℚ) : ℚ := if xs = [] then 0 else npMean xs

/-- Embedding of the sampling loop of `gather_data()` (src/eel2.py
lines 90-108).  Each entry of `ticks` is one 1-second iteration of the
600-second while loop: `some r` is the grid average `np.mean(sensor.pixels)`
read at that tick, `none` is a raised exception (SensorFault).  The
`try/except` block wraps the whole while loop, so the first exception exits
the loop: the window ends early and the readings gathered so far are
returned. -/
def gather_data : List (Option ℚ) → List ℚ
  | [] => []
  | none :: _ => []
  | some r :: rest => r :: gather_data rest

/-- Modelled from the spec (§4.2): the skipped-tick semantics the spec
describes for a gathering window, where a SensorFault only skips that tick and
sampling continues for the remainder of the window. -/
def gather_data_skips (ticks : List (Option ℚ)) : List ℚ := ticks.filterMap id

/-- C2 counterexample: in a three-tick window whose second tick raises a
SensorFault, the program returns only the first reading — the third tick is
never sampled — whereas the claimed skipped-tick behaviour would return the
first and the third readings.  The fault terminates the window early. -/
theorem gather_data_fault_ends_window :
    gather_data [some (1 : ℚ), none, some 3] = [1] ∧
    gather_data_skips [some (1 : ℚ), none, some 3] = [1, 3] ∧
    gather_data [some (1 : ℚ), none, some 3] ≠
      gather_data_skips [some (1 : ℚ), none, some 3] := by
  refine ⟨rfl, rfl, ?_⟩
  intro h
  simp [gather_data, gather_data_skips] at h

/-- C2 (amended): a SensorFault does not crash the scheduler — `gather_data`
still returns and the cycle proceeds with what was collected — but it does
terminate the gathering window early: the returned readings are exactly the
successful ticks before the first fault, and every tick after the first fault
is dropped, not merely the faulting one. -/
theorem gather_data_prefix_before_fault (ticks : List (Option ℚ)) :
    gather_data ticks = (ticks.takeWhile Option.isSome).filterMap id := by
  induction ticks with
  | nil => rfl
  | cons t rest ih =>
    cases t with
    | none => simp [gather_data, List.takeWhile_cons]
    | some r => simp [gather_data, List.takeWhile_cons, ih]

/-- Embedding of `predict_temperature(data)` (src/eel2.py lines 120-131).
The source fits `sklearn.linear_model.LinearRegression` on
`X = [[0], ..., [len(data)-1]]`, `y = data` and evaluates the fit at
`len(data) + 600`.  With `fit_intercept=True` the fit centres `X` and `y` and
solves least squares on the centred data, giving the ordinary least-squares
slope `sxy / sxx` and intercept `ybar - slope * xbar`; when the centred design
is identically zero (a single sample), `lstsq` returns the minimum-norm
solution, slope 0.  On empty input `fit` raises, the `except` branch catches
it and returns 0.0 (lines 129-131). -/
def predict_temperature (data : List ℚ) : ℚ :=
  if data.length = 0 then 0
  else
    let n : ℚ := (data.length : ℚ)
    let xs : List ℚ := (List.range data.length).map (fun i => (i : ℚ))
    let xbar : ℚ := xs.sum / n
    let ybar : ℚ := data.sum / n
    let sxy : ℚ := ((xs.zip data).map (fun p => (p.1 - xbar) * (p.2 - ybar))).sum
    let sxx : ℚ := (xs.map (fun x => (x - xbar) * (x - xbar))).sum
    let slope : ℚ := if sxx = 0 then 0 else sxy / sxx
    let intercept : ℚ := ybar - slope * xbar
    intercept + slope * (n + 600)

/-- C3 counterexample: on the single-point input [5] the program returns 5,
not the fallback 0.0 — the one-sample fit succeeds (slope 0, intercept 5) and
its evaluation at index 601 is 5. -/
theorem predict_single_point_not_zero :
    predict_temperature [(5 : ℚ)] = 5 ∧ (5 : ℚ) ≠ 0 := by
  constructor
  · norm_num [predict_temperature, List.range_succ]
  · norm_num

/-- C3 (amended): on every single-point input [v] the fit does not fail:
the degenerate least-squares solution has slope 0 and intercept v, so the
program returns v itself.  The fallback value 0.0 is returned only for empty
input (and for [v] only when v happens to be 0). -/
theorem predict_single_point (v : ℚ) : predict_temperature [v] = v := by
  simp [predict_temperature, List.range_succ]

/-- C5: on input [1, 2, 3, 4, 5] the least-squares fit has slope 1 and
intercept 1, and the program returns its value at index len(data) + 600 = 605,
namely 606 (exactly, in the rational model of the floating-point
computation). -/
theorem predict_linear_input :
    predict_temperature [(1 : ℚ), 2, 3, 4, 5] = 606 := by
  norm_num [predict_temperature, List.range_succ]

/-- C6: on empty input the fit raises, the exception is caught, and the
program returns 0.0 rather than propagating an error. -/
theorem predict_empty : predict_temperature ([] : List ℚ) = 0 := rfl

/-- One entry of the in-memory history `cycle_data` (src/eel2.py
lines 144-148): the dict appended once per completed cycle. -/
structure CycleRecord where
  cycle : Nat
  avg_temp : ℚ
  predicted_temp : ℚ
deriving DecidableEq, Repr

/-- Global mutable state of the collection loop (src/eel2.py lines 45-48):
`cycle_count`, the most recent window's raw readings `sensor_data`, and the
in-memory history `cycle_data`.  The actuator flag is threaded separately by
`notifyRun`; it does not influence these fields. -/
structure SchedState where
  cycle_count : Nat
  sensor_data : List ℚ
  cycle_data : List CycleRecord
deriving DecidableEq, Repr

/-- Initial global state: `sensor_data = []`, `cycle_data = []`,
`cycle_count = 0`. -/
def initState : SchedState := { cycle_count := 0, sensor_data := [], cycle_data := [] }

/-- Embedding of one iteration of the inner `for _ in range(6)` body of
`data_collection_cycle()` (src/eel2.py lines 137-164): increment
`cycle_count`, gather a window, store it in `sensor_data`, predict, and append
the cycle record to `cycle_data`.  CSV output, the notify call on the
prediction, and the padding sleep do not touch this state and are modelled by
`notify_nodemcu` and `cycle_sleep` separately. -/
def cycleStep (s : SchedState) (ticks : List (Option ℚ)) : SchedState :=
  { cycle_count := s.cycle_count + 1
    sensor_data := gather_data ticks
    cycle_data := s.cycle_data ++
      [{ cycle := s.cycle_count + 1
         avg_temp := avgOr0 (gather_data ticks)
         predicted_temp := predict_temperature (gather_data ticks) }] }

/-- Run of `data_collection_cycle` from program start over the given list of
gathering windows (each window its per-tick outcomes).  The `for` groups of 6
and the hour padding only affect timing, not this state, so a run prefix of
any length is a fold. -/
def runSched (windows : List (List (Option ℚ))) : SchedState :=
  windows.foldl cycleStep initState

/-- Helper: along any run, `cycle_count` advances by the number of windows and
the appended records carry the consecutive cycle numbers starting after the
initial count. -/
theorem runSched_go (ws : List (List (Option ℚ))) :
    ∀ s : SchedState,
      (ws.foldl cycleStep s).cycle_count = s.cycle_count + ws.length ∧
      (ws.foldl cycleStep s).cycle_data.map CycleRecord.cycle =
        s.cycle_data.map CycleRecord.cycle ++
          List.range' (s.cycle_count + 1) ws.length := by
  induction ws with
  | nil => intro s; simp
  | cons w ws ih =>
    intro s
    have h := ih (cycleStep s w)
    refine ⟨?_, ?_⟩
    · rw [List.foldl_cons, h.1]
      simp [cycleStep]
      omega
    · rw [List.foldl_cons, h.2]
      simp [cycleStep, List.range'_succ]

/-- Helper: the i-th record of the history holds cycle number i + 1. -/
theorem runSched_cycle_index (ws : List (List (Option ℚ))) (i : Nat)
    (h : i < (runSched ws).cycle_data.length) :
    ((runSched ws).cycle_data.get ⟨i, h⟩).cycle = i + 1 := by
  have hmap : (runSched ws).cycle_data.map CycleRecord.cycle = List.range' 1 ws.length := by
    have h0 := (runSched_go ws initState).2
    simpa [runSched, initState] using h0
  have hm : i < ((runSched ws).cycle_data.map CycleRecord.cycle).length := by simpa using h
  have h2 := List.getElem_of_eq hmap hm
  rw [List.getElem_map] at h2
  rw [List.get_eq_getElem, h2, List.getElem_range']
  omega

/-- C4: along every run of the scheduler the in-memory history is strictly
monotonic and gapless — the first record has cycle number 1, each later record
increments the previous record's cycle number by exactly 1, and no record has
cycle number 0. -/
theorem history_monotonic (ws : List (List (Option ℚ))) :
    (∀ h : 0 < (runSched ws).cycle_data.length,
      ((runSched ws).cycle_data.get ⟨0, h⟩).cycle = 1) ∧
    (∀ i : Nat, ∀ h : i + 1 < (runSched ws).cycle_data.length,
      ((runSched ws).cycle_data.get ⟨i + 1, h⟩).cycle =
        ((runSched ws).cycle_data.get ⟨i, Nat.lt_of_succ_lt h⟩).cycle + 1) ∧
    (∀ rec ∈ (runSched ws).cycle_data, rec.cycle ≠ 0) := by
  refine ⟨?_, ?_, ?_⟩
  · intro h
    exact runSched_cycle_index ws 0 h
  · intro i h
    rw [runSched_cycle_index ws (i + 1) h,
      runSched_cycle_index ws i (Nat.lt_of_succ_lt h)]
  · intro rec hmem
    obtain ⟨n, hn⟩ := List.mem_iff_get.1 hmem
    rw [← hn, runSched_cycle_index ws n.1 n.2]
    omega

/-- Witness for C4 on a concrete two-window run: the history's records carry
cycle numbers 1 and 2, and the first record's cycle number is nonzero. -/
theorem history_monotonic_witness :
    ((runSched [[some (1 : ℚ)], []]).cycle_data.get ⟨0, by decide⟩).cycle = 1 ∧
    ((runSched [[some (1 : ℚ)], []]).cycle_data.get ⟨0 + 1, by decide⟩).cycle =
      ((runSched [[some (1 : ℚ)], []]).cycle_data.get ⟨0, by decide⟩).cycle + 1 ∧
    ((runSched [[some (1 : ℚ)], []]).cycle_data.get ⟨0, by decide⟩).cycle ≠ 0 :=
  ⟨(history_monotonic [[some (1 : ℚ)], []]).1 (by decide),
    (history_monotonic [[some (1 : ℚ)], []]).2.1 0 (by decide),
    (history_monotonic [[some (1 : ℚ)], []]).2.2 _ (List.get_mem ..)⟩

/-- Shape of the JSON object returned by the `/data` route (src/eel2.py
lines 173-181). -/
structure DataResponse where
  cycle : Nat
  current_avg : ℚ
  latest_predicted : ℚ
  history : List CycleRecord
deriving DecidableEq, Repr

/-- Embedding of `get_data()` (src/eel2.py lines 173-181): a read-only
snapshot of the shared state — `cycle_count`,
`np.mean(sensor_data) if sensor_data else 0`,
`cycle_data[-1]['predicted_temp'] if cycle_data else 0`, and `cycle_data`. -/
def get_data (s : SchedState) : DataResponse :=
  { cycle := s.cycle_count
    current_avg := avgOr0 s.sensor_data
    latest_predicted :=
      match s.cycle_data.getLast? with
      | some rec => rec.predicted_temp
      | none => 0
    history := s.cycle_data }

/-- C7: after N = ws.length + 1 completed cycles the status query returns
cycle = N, the in-memory history itself (length N, in order), the most recent
record is the N-th one built from the last window, `latest_predicted` is that
record's predicted value, and `current_avg` is the mean of the most recent
window's raw readings (whenever that window gathered at least one reading). -/
theorem get_data_after_cycles (ws : List (List (Option ℚ))) (w : List (Option ℚ)) :
    (get_data (runSched (ws ++ [w]))).cycle = ws.length + 1 ∧
    (get_data (runSched (ws ++ [w]))).history = (runSched (ws ++ [w])).cycle_data ∧
    (get_data (runSched (ws ++ [w]))).history.length = ws.length + 1 ∧
    (runSched (ws ++ [w])).cycle_data.getLast? =
      some { cycle := ws.length + 1
             avg_temp := avgOr0 (gather_data w)
             predicted_temp := predict_temperature (gather_data w) } ∧
    (get_data (runSched (ws ++ [w]))).latest_predicted =
      predict_temperature (gather_data w) ∧
    (gather_data w ≠ [] →
      (get_data (runSched (ws ++ [w]))).current_avg = npMean (gather_data w)) := by
  have hfold : runSched (ws ++ [w]) = cycleStep (runSched ws) w := by
    simp [runSched, List.foldl_append]
  have hcc : (runSched ws).cycle_count = ws.length := by
    have h0 := (runSched_go ws initState).1
    simpa [runSched, initState] using h0
  have hlen : (runSched ws).cycle_data.length = ws.length := by
    have h0 := congrArg List.length ((runSched_go ws initState).2)
    simpa [runSched, initState] using h0
  refine ⟨?_, rfl, ?_, ?_, ?_, ?_⟩
  · rw [hfold]; simp [get_data, cycleStep, hcc]
  · rw [hfold]; simp [get_data, cycleStep, hlen]
  · rw [hfold]; simp [cycleStep, List.getLast?_concat, hcc]
  · rw [hfold]; simp [get_data, cycleStep, List.getLast?_concat]
  · intro hne
    rw [hfold]
    simp [get_data, cycleStep, avgOr0, hne]

/-- Witness for C7 on the one-window run [[2 °C]]: the window's readings are
nonempty and the reported current average is their mean. -/
theorem get_data_after_cycles_witness :
    gather_data [some (2 : ℚ)] ≠ [] ∧
    (get_data (runSched [[some (2 : ℚ)]])).current_avg =
      npMean (gather_data [some (2 : ℚ)]) :=
  ⟨by decide, (get_data_after_cycles [] [some (2 : ℚ)]).2.2.2.2.2 (by decide)⟩

/-- C10: before any cycle has completed (empty sample buffer, empty history)
the status query does not fail and returns cycle = 0, current_avg = 0,
latest_predicted = 0, and an empty history. -/
theorem get_data_initial :
    get_data (runSched []) =
      { cycle := 0, current_avg := 0, latest_predicted := 0, history := [] } := rfl

/-- Embedding of the cycle padding of `data_collection_cycle()` (src/eel2.py
lines 162-164): the time slept after a cycle that measured
`cycle_duration` seconds — `600 - cycle_duration` when the duration is below
600 s, otherwise no sleep at all. -/
def cycle_sleep (cycle_duration : ℚ) : ℚ :=
  if cycle_duration < 600 then 600 - cycle_duration else 0

/-- Embedding of the hour padding (src/eel2.py lines 165-167): the time slept
after a group of 6 cycles that measured `elapsed` seconds. -/
def hour_sleep (elapsed : ℚ) : ℚ :=
  if elapsed < 3600 then 3600 - elapsed else 0

/-- C8: the scheduler never sleeps a negative amount; when a cycle took less
than 600 s it sleeps exactly the remainder so the cycle spans 600 s, and when
it took 600 s or more it proceeds immediately; the same non-negative-padding
rule pads each group of 6 cycles to 3600 s. -/
theorem scheduler_padding (d e : ℚ) :
    0 ≤ cycle_sleep d ∧
    (d < 600 → d + cycle_sleep d = 600) ∧
    (600 ≤ d → cycle_sleep d = 0) ∧
    0 ≤ hour_sleep e ∧
    (e < 3600 → e + hour_sleep e = 3600) ∧
    (3600 ≤ e → hour_sleep e = 0) := by
  unfold cycle_sleep hour_sleep
  refine ⟨?_, ?_, ?_, ?_, ?_, ?_⟩ <;> intros <;> split_ifs <;> linarith

/-- Witness for C8 at concrete durations: a 100 s cycle is padded to 600 s, a
700 s cycle gets no sleep, a 300 s hour is padded to 3600 s, a 4000 s hour
gets no sleep. -/
theorem scheduler_padding_witness :
    (100 : ℚ) + cycle_sleep 100 = 600 ∧
    cycle_sleep 700 = 0 ∧
    (300 : ℚ) + hour_sleep 300 = 3600 ∧
    hour_sleep 4000 = 0 :=
  ⟨(scheduler_padding 100 0).2.1 (by norm_num),
    (scheduler_padding 700 0).2.2.1 (by norm_num),
    (scheduler_padding 0 300).2.2.2.2.1 (by norm_num),
    (scheduler_padding 0 4000).2.2.2.2.2 (by norm_num)⟩

/-- Age in days computed by `cleanup_files()` (src/eel2.py line 211):
`(now - os.path.getmtime(file)) / 86400`. -/
def file_age_days (now mtime : ℚ) : ℚ := (now - mtime) / 86400

/-- Deletion decision of the retention sweep (src/eel2.py lines 211-214):
a file is removed exactly when `file_age_days > 30`. -/
def cleanup_deletes (now mtime : ℚ) : Bool := file_age_days now mtime > 30

/-- C9: the retention sweep deletes a durable file iff its modification time
is strictly more than 30 days (30 × 86400 s) in the past; in particular a file
31 days old is deleted and a file 29 days old is left in place. -/
theorem retention_sweep (now mtime : ℚ) :
    (cleanup_deletes now mtime = true ↔ 30 * 86400 < now - mtime) ∧
    cleanup_deletes now (now - 31 * 86400) = true ∧
    cleanup_deletes now (now - 29 * 86400) = false := by
  refine ⟨?_, ?_, ?_⟩
  · rw [cleanup_deletes, file_age_days, decide_eq_true_eq, gt_iff_lt,
      lt_div_iff₀ (by norm_num : (0 : ℚ) < 86400)]
  · rw [cleanup_deletes, file_age_days, decide_eq_true_eq]
    have h : now - (now - 31 * 86400) = 31 * 86400 := by ring
    rw [h]
    norm_num
  · rw [cleanup_deletes, file_age_days, decide_eq_false_iff_not]
    have h : now - (now - 29 * 86400) = 29 * 86400 := by ring
    rw [h]
    norm_num

/-- Witness for C9 at a concrete clock value: a file 31 days old at time 0 is
deleted. -/
theorem retention_sweep_witness :
    cleanup_deletes 0 (0 - 31 * 86400) = true :=
  (retention_sweep 0 (0 - 31 * 86400)).2.1
